import Mathlib

/-!
Verification of the feature_ramp library (feature_ramp/Feature.py).

The embedding models the Redis store as a `Store` value (a key/value
association list plus the single registry set `feature.active_features`),
identifiers as Python mixed-type scalars (strings or integers), and the
Python builtin string `hash` as an arbitrary parameter `h : String → Int`:
the library only ever hashes strings, and Python's `%` with a positive
divisor returns a non-negative result, exactly like Lean's `Int` `%`
(`Int.emod`).  JSON serialization round-trips records exactly, so the
stored value is modelled as the dictionary itself, with every field
optional to mirror `dict.get(key, default)` in `__init__`.
-/

/-- Identifiers are Python hashable scalars: strings or integers.  Python
equality never identifies an `int` with a `str`, so derived decidable
equality matches Python `in` on lists of such values. -/
inductive Ident where
  | str (s : String)
  | int (n : Int)
deriving DecidableEq, Repr

/-- String form of an identifier, as produced by Python `str()` on it.
A string maps to itself; an integer to its decimal form (mirrors
`identifier if isinstance(identifier, basestring) else str(identifier)`). -/
def identStr : Ident → String
  | .str s => s
  | .int n => toString n

/-- The dictionary stored at a feature key, as produced by `json.dumps` of
`_get_redis_data` and read back by `_deserialize`.  Every field optional:
`__init__` reads each with `dict.get(key, default)`, and `_deserialize(None)`
yields the empty dictionary. -/
structure StoredDict where
  whitelist : Option (List Ident)
  blacklist : Option (List Ident)
  percentage : Option Int
deriving DecidableEq, Repr

/-- The Redis state the library touches: the feature keys (an association
list keyed by the namespaced feature key) and the members of the single
registry set stored at `feature.active_features`. -/
structure Store where
  kv : List (String × StoredDict)
  registry : List String
deriving DecidableEq, Repr

/-- Model of `redis.get`. -/
def redisGet (s : Store) (k : String) : Option StoredDict :=
  (s.kv.find? (fun p => p.1 == k)).map Prod.snd

/-- Model of `redis.set`: overwrite the value at `k`. -/
def redisSet (s : Store) (k : String) (v : StoredDict) : Store :=
  { s with kv := (k, v) :: s.kv.filter (fun p => p.1 != k) }

/-- Model of `redis.delete`: removing an absent key is a no-op. -/
def redisDelete (s : Store) (k : String) : Store :=
  { s with kv := s.kv.filter (fun p => p.1 != k) }

/-- Model of `redis.sadd` on the registry set. -/
def Store.sadd (s : Store) (k : String) : Store :=
  if k ∈ s.registry then s else { s with registry := s.registry ++ [k] }

/-- Model of `redis.srem` on the registry set: removing an absent member is
a no-op. -/
def Store.srem (s : Store) (k : String) : Store :=
  { s with registry := s.registry.filter (fun m => m != k) }

/-- Constant `REDIS_NAMESPACE = 'feature'`. -/
def REDIS_NAMESPACE : String := "feature"

/-- Constant `REDIS_VERSION = 1`. -/
def REDIS_VERSION : Nat := 1

/-- Constant `REDIS_SET_KEY = 'active_features'`. -/
def REDIS_SET_KEY : String := "active_features"

/-- Source `_get_redis_key`: `'{0}.{1}.{2}'.format(namespace, version, feature_name)`. -/
def get_redis_key (feature_name : String) : String :=
  REDIS_NAMESPACE ++ "." ++ toString REDIS_VERSION ++ "." ++ feature_name

/-- Source `_get_redis_set_key`: `'{0}.{1}'.format(namespace, set_key)`. -/
def get_redis_set_key : String := REDIS_NAMESPACE ++ "." ++ REDIS_SET_KEY

/-- Python `str.split(sep)[i]` machinery: `pySplit c l` is `l` split on the
single character `c`, with Python semantics (always at least one piece;
adjacent separators produce empty pieces). -/
def pySplit (c : Char) : List Char → List (List Char)
  | [] => [[]]
  | x :: xs =>
    let r := pySplit c xs
    if x = c then [] :: r else (x :: r.headD []) :: r.tail

/-- Source `_get_feature_name_from_redis_key`: `key.split('.')[-1]`. -/
def get_feature_name_from_redis_key (key : String) : String :=
  String.mk ((pySplit '.' key.data).getLastD [])

/-- The in-memory `Feature` object. -/
structure Feature where
  feature_name : String
  feature_group_name : Option String
  whitelist : List Ident
  blacklist : List Ident
  percentage : Int
deriving DecidableEq, Repr

/-- Source `Feature.__init__`: load the stored dictionary for the feature
key (absent key deserializes to the empty dictionary) and read each field
with its default (`default_percentage` for the percentage). -/
def Feature.init (s : Store) (feature_name : String)
    (feature_group_name : Option String) (default_percentage : Int) : Feature :=
  let redis_data := (redisGet s (get_redis_key feature_name)).getD ⟨none, none, none⟩
  { feature_name := feature_name
    feature_group_name := feature_group_name
    whitelist := redis_data.whitelist.getD []
    blacklist := redis_data.blacklist.getD []
    percentage := redis_data.percentage.getD default_percentage }

/-- Source `_get_redis_data`: the dictionary written back to Redis. -/
def Feature.get_redis_data (f : Feature) : StoredDict :=
  { whitelist := some f.whitelist
    blacklist := some f.blacklist
    percentage := some f.percentage }

/-- Source `_save`: `redis.set(key, json.dumps(data))` followed by
`redis.sadd(set_key, key)`. -/
def Feature.save (f : Feature) (s : Store) : Store :=
  (redisSet s (get_redis_key f.feature_name) f.get_redis_data).sadd
    (get_redis_key f.feature_name)

/-- Python truthiness of `self.feature_group_name`: `None` and the empty
string are falsy (the source guards with `if not self.feature_group_name`). -/
def Feature.group_truthy (f : Feature) : Bool :=
  match f.feature_group_name with
  | none => false
  | some g => g != ""

/-- Source `_is_ramped` line computing `consistent_offset`:
`hash(self.feature_name) % 100 if not self.feature_group_name else hash(self.feature_group_name)`. -/
def Feature.consistent_offset (h : String → Int) (f : Feature) : Int :=
  if !f.group_truthy then h f.feature_name % 100 else h (f.feature_group_name.getD "")

/-- Source `_is_ramped` line computing
`ramp_ranking = (consistent_offset + hash(identifier)) % 100`, after the
identifier has been stringified. -/
def Feature.ramp_ranking (h : String → Int) (f : Feature) (identifier : Ident) : Int :=
  (f.consistent_offset h + h (identStr identifier)) % 100

/-- Source `_is_ramped`: `return ramp_ranking < self.percentage`. -/
def Feature.is_ramped (h : String → Int) (f : Feature) (identifier : Ident) : Bool :=
  decide (f.ramp_ranking h identifier < f.percentage)

/-- Source `is_whitelisted`: `identifier in self.whitelist`. -/
def Feature.is_whitelisted (f : Feature) (identifier : Ident) : Bool :=
  f.whitelist.contains identifier

/-- Source `is_blacklisted`: `identifier in self.blacklist`. -/
def Feature.is_blacklisted (f : Feature) (identifier : Ident) : Bool :=
  f.blacklist.contains identifier

/-- Source `is_visible`: whitelist first, then blacklist, then ramp. -/
def Feature.is_visible (h : String → Int) (f : Feature) (identifier : Ident) : Bool :=
  if f.is_whitelisted identifier then true
  else if f.is_blacklisted identifier then false
  else f.is_ramped h identifier

/-- The one exception kind the source raises (`ValueError`); in the spec's
vocabulary this is `InvalidArgument` from `set_percentage` and the
`NotFound`-style failure from `list.remove`. -/
inductive PyErr where
  | valueError
deriving DecidableEq, Repr

/-- Result of running a mutating method: the exception if one was raised,
and the feature object and store as they stand afterwards (on an exception,
the method raised before any assignment, so both are as they were). -/
structure MutResult where
  err : Option PyErr
  feat : Feature
  store : Store
deriving DecidableEq, Repr

/-- Digits of a decimal literal to the number they denote. -/
def digitsToNat (cs : List Char) : Nat :=
  cs.foldl (fun acc c => acc * 10 + (c.toNat - 48)) 0

/-- True when `cs` is one or more decimal digits. -/
def allDigits (cs : List Char) : Bool :=
  !cs.isEmpty && cs.all (fun c => c.isDigit)

/-- Modelled from the spec: the external Python builtin `float(str)`
primitive (the spec treats parsing as "can be parsed as a number"),
restricted to plain signed decimal literals — an optional sign, then
digits with at most one point and at least one digit.  This is exactly the
shape the spec and the tests exercise (`"50"` parses, `"meow"` fails). -/
def pyFloatOfDigits (cs : List Char) : Option Rat :=
  match pySplit '.' cs with
  | [w] => if allDigits w then some ((digitsToNat w : Int) : Rat) else none
  | [w, fr] =>
    if (allDigits w || w.isEmpty) && (allDigits fr || fr.isEmpty)
        && !(w.isEmpty && fr.isEmpty) then
      some ((digitsToNat w : Rat) + (digitsToNat fr : Rat) / ((10 : Rat) ^ fr.length))
    else none
  | _ => none

/-- Python `float(str)` with the optional leading sign. -/
def pyFloatOfString (s : String) : Option Rat :=
  match s.data with
  | '-' :: rest => (pyFloatOfDigits rest).map (fun q => -q)
  | '+' :: rest => pyFloatOfDigits rest
  | cs => pyFloatOfDigits cs

/-- The values `set_percentage` may receive: an integer, a float (modelled
as a rational) or a string. -/
inductive PyVal where
  | int (n : Int)
  | float (q : Rat)
  | str (s : String)
deriving DecidableEq, Repr

/-- Python `float(value)` on a percentage argument: identity on numbers,
string parsing on strings, `None` standing for the raised `ValueError`. -/
def pyFloat : PyVal → Option Rat
  | .int n => some ((n : Rat))
  | .float q => some q
  | .str s => pyFloatOfString s

/-- Python `int()` on a float: truncation toward zero (50.9 becomes 50,
-50.9 becomes -50). -/
def pyTruncToInt (q : Rat) : Int := q.num.tdiv q.den

/-- Source `set_percentage`: `percentage = int(float(percentage))`, raise
`ValueError` if unparseable or outside `[0, 100]`, else assign and save. -/
def Feature.set_percentage (f : Feature) (s : Store) (v : PyVal) : MutResult :=
  match pyFloat v with
  | none => ⟨some .valueError, f, s⟩
  | some q =>
    let percentage := pyTruncToInt q
    if percentage < 0 || percentage > 100 then ⟨some .valueError, f, s⟩
    else
      let f2 := { f with percentage := percentage }
      ⟨none, f2, f2.save s⟩

/-- Source `activate`: `set_percentage(100)`. -/
def Feature.activate (f : Feature) (s : Store) : MutResult :=
  f.set_percentage s (.int 100)

/-- Source `deactivate`: `set_percentage(0)`. -/
def Feature.deactivate (f : Feature) (s : Store) : MutResult :=
  f.set_percentage s (.int 0)

/-- Source `reset_settings`: zero the percentage, empty both lists, save. -/
def Feature.reset_settings (f : Feature) (s : Store) : Feature × Store :=
  let f2 := { f with percentage := 0, whitelist := [], blacklist := [] }
  (f2, f2.save s)

/-- Source `delete`: `redis.delete(key)` then `redis.srem(set_key, key)`. -/
def Feature.delete (f : Feature) (s : Store) : Store :=
  (redisDelete s (get_redis_key f.feature_name)).srem (get_redis_key f.feature_name)

/-- Python `list.remove(x)`: drop the first occurrence, or `None` for the
raised `ValueError` when `x` is absent. -/
def pyListRemove (xs : List Ident) (x : Ident) : Option (List Ident) :=
  match xs with
  | [] => none
  | y :: ys => if y == x then some ys else (pyListRemove ys x).map (fun l => y :: l)

/-- Source `add_to_whitelist`: `self.whitelist.append(identifier)` then save. -/
def Feature.add_to_whitelist (f : Feature) (s : Store) (identifier : Ident) :
    Feature × Store :=
  let f2 := { f with whitelist := f.whitelist ++ [identifier] }
  (f2, f2.save s)

/-- Source `remove_from_whitelist`: `self.whitelist.remove(identifier)`
then save; `list.remove` raises before any state changes when absent. -/
def Feature.remove_from_whitelist (f : Feature) (s : Store) (identifier : Ident) :
    MutResult :=
  match pyListRemove f.whitelist identifier with
  | none => ⟨some .valueError, f, s⟩
  | some ws =>
    let f2 := { f with whitelist := ws }
    ⟨none, f2, f2.save s⟩

/-- Source `add_to_blacklist`: `self.blacklist.append(identifier)` then save. -/
def Feature.add_to_blacklist (f : Feature) (s : Store) (identifier : Ident) :
    Feature × Store :=
  let f2 := { f with blacklist := f.blacklist ++ [identifier] }
  (f2, f2.save s)

/-- Source `remove_from_blacklist`: `self.blacklist.remove(identifier)`
then save; `list.remove` raises before any state changes when absent. -/
def Feature.remove_from_blacklist (f : Feature) (s : Store) (identifier : Ident) :
    MutResult :=
  match pyListRemove f.blacklist identifier with
  | none => ⟨some .valueError, f, s⟩
  | some bs =>
    let f2 := { f with blacklist := bs }
    ⟨none, f2, f2.save s⟩

/-- Source `all_features()` without data: the registry members mapped
through `_get_feature_name_from_redis_key`. -/
def all_features (s : Store) : List String :=
  s.registry.map get_feature_name_from_redis_key

/-- One feature entry of `all_features(include_data=True)`: the
`percentage` key is always present; the `whitelist`/`blacklist` keys are
present exactly when `none` is not used. -/
structure FeatureData where
  percentage : Int
  whitelist : Option (List Ident)
  blacklist : Option (List Ident)
deriving DecidableEq, Repr

/-- Source `all_features(include_data=True)` loop body: build the entry for
one feature name loaded as `cls(feature)`, adding the whitelist and
blacklist keys only when the loaded lists are truthy (non-empty). -/
def feature_data_entry (s : Store) (feature : String) : FeatureData :=
  let data := Feature.init s feature none 0
  { percentage := data.percentage
    whitelist := if data.whitelist.isEmpty then none else some data.whitelist
    blacklist := if data.blacklist.isEmpty then none else some data.blacklist }

/-- Source `all_features(include_data=True)`: the dictionary built by the
loop.  The value assigned for a name depends only on the store and the
name, so Python's dictionary assignment (last write wins on duplicate
names) stores exactly the value paired with the name here. -/
def all_features_with_data (s : Store) : List (String × FeatureData) :=
  (all_features s).map (fun feature => (feature, feature_data_entry s feature))

/-! ## Store lemmas -/

theorem redisGet_set_self (s : Store) (k : String) (v : StoredDict) :
    redisGet (redisSet s k v) k = some v := by
  simp [redisGet, redisSet]

theorem redisGet_sadd (s : Store) (k k2 : String) :
    redisGet (s.sadd k) k2 = redisGet s k2 := by
  unfold Store.sadd
  split <;> rfl

theorem redisGet_save_self (f : Feature) (s : Store) :
    redisGet (f.save s) (get_redis_key f.feature_name) = some f.get_redis_data := by
  unfold Feature.save
  rw [redisGet_sadd, redisGet_set_self]

theorem Feature.init_save (f : Feature) (s : Store) (g : Option String) (d : Int) :
    Feature.init (f.save s) f.feature_name g d =
      { feature_name := f.feature_name, feature_group_name := g,
        whitelist := f.whitelist, blacklist := f.blacklist,
        percentage := f.percentage } := by
  simp [Feature.init, redisGet_save_self, Feature.get_redis_data]

theorem mem_registry_sadd (s : Store) (k : String) : k ∈ (s.sadd k).registry := by
  unfold Store.sadd
  split
  · assumption
  · simp

theorem mem_registry_save (f : Feature) (s : Store) :
    get_redis_key f.feature_name ∈ (f.save s).registry :=
  mem_registry_sadd _ _

/-! ## C1 -/

/-- C1: for every feature state and identifier, `is_visible` follows the
documented precedence — a whitelisted identifier is visible even when also
blacklisted and regardless of percentage; a blacklisted identifier that is
not whitelisted is invisible regardless of percentage; otherwise the ramp
decision is returned. -/
theorem C1_is_visible_precedence (h : String → Int) (f : Feature) (identifier : Ident) :
    (identifier ∈ f.whitelist → f.is_visible h identifier = true)
    ∧ (identifier ∉ f.whitelist → identifier ∈ f.blacklist →
        f.is_visible h identifier = false)
    ∧ (identifier ∉ f.whitelist → identifier ∉ f.blacklist →
        f.is_visible h identifier = f.is_ramped h identifier) := by
  refine ⟨fun hw => ?_, fun hw hb => ?_, fun hw hb => ?_⟩ <;>
    simp [Feature.is_visible, Feature.is_whitelisted, Feature.is_blacklisted, *]

/-- Witness for C1 at a concrete state: percentage 0, identifier 3 both
whitelisted and blacklisted, still visible. -/
theorem C1_witness :
    (Feature.mk "f" none [.int 3] [.int 3] 0).is_visible (fun _ => 0) (.int 3) = true :=
  (C1_is_visible_precedence (fun _ => 0) (Feature.mk "f" none [.int 3] [.int 3] 0)
    (.int 3)).1 (by decide)

/-! ## C2 -/

/-- C2: the ramp decision — the consistent offset is the feature-name hash
reduced mod 100 when no group name is set but the unreduced group-name hash
when one is; identifiers are stringified; the ramp ranking is taken mod 100
over non-negative integers so it lies in [0, 99]; an identifier is ramped
iff its ranking is below the percentage, so percentage 100 ramps every
identifier and percentage 0 ramps none. -/
theorem C2_ramp_algorithm (h : String → Int) (f : Feature) (x : Ident) :
    (f.feature_group_name = none → f.consistent_offset h = h f.feature_name % 100)
    ∧ (∀ g, f.feature_group_name = some g → g ≠ "" → f.consistent_offset h = h g)
    ∧ (∀ n, identStr (.int n) = toString n) ∧ (∀ s, identStr (.str s) = s)
    ∧ (0 ≤ f.ramp_ranking h x ∧ f.ramp_ranking h x < 100)
    ∧ (f.is_ramped h x = true ↔ f.ramp_ranking h x < f.percentage)
    ∧ (f.percentage = 100 → f.is_ramped h x = true)
    ∧ (f.percentage = 0 → f.is_ramped h x = false) := by
  have hnn : 0 ≤ f.ramp_ranking h x := Int.emod_nonneg _ (by norm_num)
  have hlt : f.ramp_ranking h x < 100 := Int.emod_lt_of_pos _ (by norm_num)
  refine ⟨fun hg => ?_, fun g hg hne => ?_, fun n => rfl, fun s => rfl,
    ⟨hnn, hlt⟩, by simp [Feature.is_ramped], fun hp => ?_, fun hp => ?_⟩
  · simp [Feature.consistent_offset, Feature.group_truthy, hg]
  · simp [Feature.consistent_offset, Feature.group_truthy, hg, hne]
  · simp [Feature.is_ramped, hp, hlt]
  · simp [Feature.is_ramped, hp, not_lt, hnn]

/-- Witness for C2 at a concrete state: group name set, hash constant 250,
so the offset is unreduced; ranking of any identifier is (250 + 250) % 100
= 0 which is below percentage 1. -/
theorem C2_witness :
    (Feature.mk "f" (some "g") [] [] 1).consistent_offset (fun _ => 250) = 250
    ∧ (Feature.mk "f" (some "g") [] [] 1).is_ramped (fun _ => 250) (.int 7) = true :=
  ⟨((C2_ramp_algorithm (fun _ => 250) (Feature.mk "f" (some "g") [] [] 1)
      (.int 7)).2.1 "g" rfl (by decide)).trans rfl,
    ((C2_ramp_algorithm (fun _ => 250) (Feature.mk "f" (some "g") [] [] 1)
      (.int 7)).2.2.2.2.2.1).mpr (by decide)⟩

/-! ## C8 -/

/-- C8: whitelist and blacklist membership is checked against the original
typed identifier (the integer 3 whitelisted does not whitelist the string
"3" and vice versa), while the ramp decision stringifies non-string
identifiers, so the integer n and the string str(n) get the same ramp
decision. -/
theorem C8_typed_membership_ramp (h : String → Int) (f : Feature) (n : Int) :
    f.is_ramped h (.int n) = f.is_ramped h (.str (toString n))
    ∧ (f.is_whitelisted (.int n) = true ↔ Ident.int n ∈ f.whitelist)
    ∧ (f.is_blacklisted (.int n) = true ↔ Ident.int n ∈ f.blacklist)
    ∧ (Feature.mk "f" none [.int 3] [] 0).is_whitelisted (.str "3") = false
    ∧ (Feature.mk "f" none [.str "3"] [] 0).is_whitelisted (.int 3) = false := by
  refine ⟨?_, ?_, ?_, by decide, by decide⟩
  · simp [Feature.is_ramped, Feature.ramp_ranking, identStr]
  · simp [Feature.is_whitelisted]
  · simp [Feature.is_blacklisted]

/-- Witness for C8 at a concrete state: integer 3 is whitelisted as the
typed value. -/
theorem C8_witness :
    Ident.int 3 ∈ (Feature.mk "f" none [.int 3] [] 0).whitelist :=
  (C8_typed_membership_ramp (fun _ => 0) (Feature.mk "f" none [.int 3] [] 0) 3).2.1.mp
    (by decide)

/-! ## C9 -/

/-- C9: add_to_whitelist and add_to_blacklist append unconditionally and do
not deduplicate — adding the same identifier twice leaves it in the list
twice (insertion multiplicity is preserved). -/
theorem C9_add_no_dedup (f : Feature) (s s2 : Store) (x : Ident) :
    ((f.add_to_whitelist s x).1.add_to_whitelist s2 x).1.whitelist = f.whitelist ++ [x, x]
    ∧ (((f.add_to_whitelist s x).1.add_to_whitelist s2 x).1.whitelist.count x
        = f.whitelist.count x + 2)
    ∧ ((f.add_to_blacklist s x).1.add_to_blacklist s2 x).1.blacklist = f.blacklist ++ [x, x]
    ∧ (((f.add_to_blacklist s x).1.add_to_blacklist s2 x).1.blacklist.count x
        = f.blacklist.count x + 2) := by
  refine ⟨?_, ?_, ?_, ?_⟩ <;>
    simp [Feature.add_to_whitelist, Feature.add_to_blacklist, List.count_append]

/-! ## pySplit lemmas -/

theorem pySplit_ne_nil (c : Char) (l : List Char) : pySplit c l ≠ [] := by
  cases l with
  | nil => simp [pySplit]
  | cons x xs =>
    simp only [pySplit]
    split <;> simp

theorem pySplit_no_sep (c : Char) (l : List Char) (h : ∀ x ∈ l, x ≠ c) :
    pySplit c l = [l] := by
  induction l with
  | nil => rfl
  | cons x xs ih =>
    have hx : x ≠ c := h x (List.mem_cons_self x xs)
    have hxs : ∀ y ∈ xs, y ≠ c := fun y hy => h y (List.mem_cons_of_mem x hy)
    simp [pySplit, hx, ih hxs]

theorem get_redis_key_data (name : String) :
    (get_redis_key name).data
      = 'f' :: 'e' :: 'a' :: 't' :: 'u' :: 'r' :: 'e' :: '.' :: '1' :: '.' :: name.data := rfl

theorem pySplit_key (name : String) :
    pySplit '.' (get_redis_key name).data
      = ['f','e','a','t','u','r','e'] :: ['1'] :: pySplit '.' name.data := rfl

theorem getLastD_of_ne_nil {α : Type} (l : List α) (d1 d2 : α) (h : l ≠ []) :
    l.getLastD d1 = l.getLastD d2 := by
  cases l with
  | nil => exact absurd rfl h
  | cons x xs => rw [List.getLastD_cons, List.getLastD_cons]

/-! ## C10 -/

/-- C10: all_features derives each name as the substring of the storage key
after the last dot, so the enumeration returns the final dot-separated
segment of the feature name; the key-to-name round trip is the identity
exactly on dot-free names, and a name containing a dot comes back as only
its final segment ("my.feature" comes back as "feature"). -/
theorem C10_key_name_round_trip (name : String) :
    get_feature_name_from_redis_key (get_redis_key name)
      = String.mk ((pySplit '.' name.data).getLastD [])
    ∧ ((∀ c ∈ name.data, c ≠ '.') →
        get_feature_name_from_redis_key (get_redis_key name) = name)
    ∧ get_feature_name_from_redis_key (get_redis_key "my.feature") = "feature"
    ∧ "feature" ≠ "my.feature" := by
  have hmain : get_feature_name_from_redis_key (get_redis_key name)
      = String.mk ((pySplit '.' name.data).getLastD []) := by
    unfold get_feature_name_from_redis_key
    rw [pySplit_key]
    congr 1
    rw [List.getLastD_cons, List.getLastD_cons]
    exact getLastD_of_ne_nil _ _ _ (pySplit_ne_nil '.' name.data)
  refine ⟨hmain, fun hnd => ?_, by decide, by decide⟩
  rw [hmain, pySplit_no_sep '.' name.data hnd]
  rfl

/-- Witness for C10 at the dot-free name "testing". -/
theorem C10_witness :
    get_feature_name_from_redis_key (get_redis_key "testing") = "testing" :=
  (C10_key_name_round_trip "testing").2.1 (by decide)

/-! ## C5 -/

theorem pyListRemove_eq_none (xs : List Ident) (x : Ident) (h : x ∉ xs) :
    pyListRemove xs x = none := by
  induction xs with
  | nil => rfl
  | cons y ys ih =>
    rw [List.mem_cons, not_or] at h
    have hy : (y == x) = false := by
      simp only [beq_eq_false_iff_ne]
      exact fun e => h.1 e.symm
    simp [pyListRemove, hy, ih h.2]

/-- C5: removing an identifier absent from the whitelist (resp. blacklist)
raises the NotFound-style ValueError, and on that failure neither the
in-memory feature object nor the store changes — the save is never
reached. -/
theorem C5_remove_absent_fails (f : Feature) (s : Store) (x : Ident) :
    (x ∉ f.whitelist →
      f.remove_from_whitelist s x = ⟨some .valueError, f, s⟩)
    ∧ (x ∉ f.blacklist →
      f.remove_from_blacklist s x = ⟨some .valueError, f, s⟩) := by
  constructor
  · intro hx
    unfold Feature.remove_from_whitelist
    rw [pyListRemove_eq_none _ _ hx]
  · intro hx
    unfold Feature.remove_from_blacklist
    rw [pyListRemove_eq_none _ _ hx]

/-- Witness for C5 at a concrete state: removing 3 from an empty whitelist
fails and leaves the feature and store untouched. -/
theorem C5_witness :
    (Feature.mk "f" none [] [] 0).remove_from_whitelist (Store.mk [] []) (.int 3)
      = ⟨some .valueError, Feature.mk "f" none [] [] 0, Store.mk [] []⟩ :=
  (C5_remove_absent_fails (Feature.mk "f" none [] [] 0) (Store.mk [] [])
    (.int 3)).1 (by decide)

/-! ## set_percentage lemmas -/

theorem pyTruncToInt_intCast (n : Int) : pyTruncToInt ((n : Int) : Rat) = n := by
  simp [pyTruncToInt]

theorem set_percentage_parse_fail (f : Feature) (s : Store) (v : PyVal)
    (hv : pyFloat v = none) : f.set_percentage s v = ⟨some .valueError, f, s⟩ := by
  unfold Feature.set_percentage
  rw [hv]

theorem set_percentage_out_of_range (f : Feature) (s : Store) (v : PyVal) (q : Rat)
    (hv : pyFloat v = some q) (hq : pyTruncToInt q < 0 ∨ 100 < pyTruncToInt q) :
    f.set_percentage s v = ⟨some .valueError, f, s⟩ := by
  unfold Feature.set_percentage
  rw [hv]
  have hcond : (decide (pyTruncToInt q < 0) || decide (pyTruncToInt q > 100)) = true := by
    rcases hq with h | h <;> simp [h]
  simp only [hcond, if_true]

theorem set_percentage_ok (f : Feature) (s : Store) (v : PyVal) (q : Rat)
    (hv : pyFloat v = some q) (h0 : 0 ≤ pyTruncToInt q) (h1 : pyTruncToInt q ≤ 100) :
    f.set_percentage s v = ⟨none, { f with percentage := pyTruncToInt q },
      Feature.save { f with percentage := pyTruncToInt q } s⟩ := by
  unfold Feature.set_percentage
  rw [hv]
  have hcond : (decide (pyTruncToInt q < 0) || decide (pyTruncToInt q > 100)) = false := by
    simp only [Bool.or_eq_false_iff, decide_eq_false_iff_not, not_lt]
    exact ⟨h0, h1⟩
  simp only [hcond, Bool.false_eq_true, if_false]

theorem activate_eq (f : Feature) (s : Store) :
    f.activate s = ⟨none, { f with percentage := 100 },
      Feature.save { f with percentage := 100 } s⟩ := by
  have h := set_percentage_ok f s (.int 100) ((100 : Int) : Rat) rfl
    (by rw [pyTruncToInt_intCast]; all_goals decide)
    (by rw [pyTruncToInt_intCast])
  rw [pyTruncToInt_intCast] at h
  exact h

theorem pyTruncToInt_509 : pyTruncToInt (509/10 : Rat) = 50 := by
  have h1 : (509/10 : Rat).num = 509 := by norm_num
  have h2 : (509/10 : Rat).den = 10 := by norm_num
  rw [pyTruncToInt, h1, h2]
  decide

/-! ## C3 -/

/-- C3 (amended): set_percentage converts the value to a float and
truncates, fails with the InvalidArgument-kind ValueError iff the value
does not parse as a number or the truncated integer is outside [0, 100]
(state untouched on failure), and on success persists a percentage inside
[0, 100]; 50.9 stores 50, "50" stores 50, "meow", -1 and 101 all fail.
The stored-percentage invariant holds after every successful
set_percentage, but not after every successful mutation: other mutations
persist the percentage loaded at construction, which an out-of-range
default_percentage can make exceed 100 (see the counterexample). -/
theorem C3_amended_set_percentage (f : Feature) (s : Store) (v : PyVal) :
    ((f.set_percentage s v).err = some .valueError ↔
      (pyFloat v = none ∨
        ∃ q, pyFloat v = some q ∧ (pyTruncToInt q < 0 ∨ 100 < pyTruncToInt q)))
    ∧ ((f.set_percentage s v).err = none →
        ∃ q, pyFloat v = some q
          ∧ (f.set_percentage s v).feat = { f with percentage := pyTruncToInt q }
          ∧ 0 ≤ pyTruncToInt q ∧ pyTruncToInt q ≤ 100
          ∧ redisGet (f.set_percentage s v).store (get_redis_key f.feature_name)
              = some (f.set_percentage s v).feat.get_redis_data)
    ∧ ((f.set_percentage s v).err = some .valueError →
        (f.set_percentage s v).feat = f ∧ (f.set_percentage s v).store = s)
    ∧ (f.set_percentage s (.float (509/10 : Rat))).err = none
    ∧ (f.set_percentage s (.float (509/10 : Rat))).feat.percentage = 50
    ∧ (f.set_percentage s (.str "50")).err = none
    ∧ (f.set_percentage s (.str "50")).feat.percentage = 50
    ∧ (f.set_percentage s (.str "meow")).err = some .valueError
    ∧ (f.set_percentage s (.int (-1))).err = some .valueError
    ∧ (f.set_percentage s (.int 101)).err = some .valueError := by
  have h509a : 0 ≤ pyTruncToInt (509/10 : Rat) := by rw [pyTruncToInt_509]; all_goals decide
  have h509b : pyTruncToInt (509/10 : Rat) ≤ 100 := by rw [pyTruncToInt_509]; all_goals decide
  have h50a : 0 ≤ pyTruncToInt ((50 : Int) : Rat) := by
    rw [pyTruncToInt_intCast]; all_goals decide
  have h50b : pyTruncToInt ((50 : Int) : Rat) ≤ 100 := by
    rw [pyTruncToInt_intCast]; all_goals decide
  have hq509 := set_percentage_ok f s (.float (509/10 : Rat)) (509/10 : Rat) rfl h509a h509b
  have hq50 := set_percentage_ok f s (.str "50") ((50 : Int) : Rat) rfl h50a h50b
  have hqm1 := set_percentage_out_of_range f s (.int (-1)) ((-1 : Int) : Rat) rfl
    (Or.inl (by rw [pyTruncToInt_intCast]; all_goals decide))
  have hq101 := set_percentage_out_of_range f s (.int 101) ((101 : Int) : Rat) rfl
    (Or.inr (by rw [pyTruncToInt_intCast]; all_goals decide))
  refine ⟨?_, ?_, ?_, by rw [hq509], by rw [hq509, pyTruncToInt_509],
    by rw [hq50], by rw [hq50, pyTruncToInt_intCast],
    by rw [set_percentage_parse_fail f s (.str "meow") rfl],
    by rw [hqm1], by rw [hq101]⟩
  · rcases hpf : pyFloat v with _ | q
    · rw [set_percentage_parse_fail f s v hpf]
      simp
    · by_cases hq : pyTruncToInt q < 0 ∨ 100 < pyTruncToInt q
      · rw [set_percentage_out_of_range f s v q hpf hq]
        simp only [true_iff]
        exact Or.inr ⟨q, rfl, hq⟩
      · rw [not_or, not_lt, not_lt] at hq
        rw [set_percentage_ok f s v q hpf hq.1 hq.2]
        simp [hpf]
        omega
  · intro hnone
    rcases hpf : pyFloat v with _ | q
    · rw [set_percentage_parse_fail f s v hpf] at hnone
      exact absurd hnone (by simp)
    · by_cases hq : pyTruncToInt q < 0 ∨ 100 < pyTruncToInt q
      · rw [set_percentage_out_of_range f s v q hpf hq] at hnone
        exact absurd hnone (by simp)
      · rw [not_or, not_lt, not_lt] at hq
        have hok := set_percentage_ok f s v q hpf hq.1 hq.2
        refine ⟨q, rfl, by rw [hok], hq.1, hq.2, ?_⟩
        rw [hok]
        exact redisGet_save_self _ _
  · intro herr
    rcases hpf : pyFloat v with _ | q
    · rw [set_percentage_parse_fail f s v hpf]
      exact ⟨rfl, rfl⟩
    · by_cases hq : pyTruncToInt q < 0 ∨ 100 < pyTruncToInt q
      · rw [set_percentage_out_of_range f s v q hpf hq]
        exact ⟨rfl, rfl⟩
      · rw [not_or, not_lt, not_lt] at hq
        rw [set_percentage_ok f s v q hpf hq.1 hq.2] at herr
        exact absurd herr (by simp)

/-- Counterexample for C3: construction with the out-of-range caller
default 101 followed by a successful mutation (add_to_whitelist) persists
percentage 101, so the invariant clause "0 <= percentage <= 100 after
every successful mutation" fails on the code. -/
theorem C3_counterexample :
    ((Feature.init (Store.mk [] []) "testing" none 101).add_to_whitelist
        (Store.mk [] []) (.int 1)).1.percentage = 101
    ∧ redisGet ((Feature.init (Store.mk [] []) "testing" none 101).add_to_whitelist
          (Store.mk [] []) (.int 1)).2 (get_redis_key "testing")
        = some (StoredDict.mk (some [.int 1]) (some []) (some 101))
    ∧ ¬ (101 : Int) ≤ 100 := by
  refine ⟨rfl, by decide, by decide⟩

/-- Witness for C3 at the concrete call set_percentage("50") on a fresh
feature: it succeeds, stores truncated 50, persists, and the result is in
range. -/
theorem C3_witness :
    ∃ q, pyFloat (.str "50") = some q
      ∧ ((Feature.mk "t" none [] [] 0).set_percentage (Store.mk [] []) (.str "50")).feat
          = { Feature.mk "t" none [] [] 0 with percentage := pyTruncToInt q }
      ∧ 0 ≤ pyTruncToInt q ∧ pyTruncToInt q ≤ 100
      ∧ redisGet
            ((Feature.mk "t" none [] [] 0).set_percentage (Store.mk [] []) (.str "50")).store
            (get_redis_key "t")
          = some (((Feature.mk "t" none [] [] 0).set_percentage
              (Store.mk [] []) (.str "50")).feat.get_redis_data) :=
  (C3_amended_set_percentage (Feature.mk "t" none [] [] 0) (Store.mk [] [])
    (.str "50")).2.1 (by
      rw [set_percentage_ok (Feature.mk "t" none [] [] 0) (Store.mk [] [])
        (.str "50") ((50 : Int) : Rat) rfl
        (by rw [pyTruncToInt_intCast]; all_goals decide)
        (by rw [pyTruncToInt_intCast]; all_goals decide)])

/-! ## C4 -/

/-- C4: activate() then a fresh construction for the same name yields
percentage 100; reset_settings() then a fresh construction yields
percentage 0 and empty whitelist and blacklist, and reset_settings leaves
the feature key in the registry set. -/
theorem C4_round_trip (f : Feature) (s : Store) (g : Option String) (d : Int) :
    ((f.activate s).err = none
      ∧ (Feature.init (f.activate s).store f.feature_name g d).percentage = 100)
    ∧ (Feature.init (f.reset_settings s).2 f.feature_name g d).percentage = 0
    ∧ (Feature.init (f.reset_settings s).2 f.feature_name g d).whitelist = []
    ∧ (Feature.init (f.reset_settings s).2 f.feature_name g d).blacklist = []
    ∧ get_redis_key f.feature_name ∈ (f.reset_settings s).2.registry := by
  have ha := activate_eq f s
  refine ⟨⟨by rw [ha], ?_⟩, ?_, ?_, ?_, ?_⟩
  · rw [ha]
    show (Feature.init (Feature.save { f with percentage := 100 } s)
      ({ f with percentage := 100 } : Feature).feature_name g d).percentage = 100
    rw [Feature.init_save]
  · show (Feature.init
      (Feature.save { f with percentage := 0, whitelist := [], blacklist := [] } s)
      ({ f with percentage := 0, whitelist := [], blacklist := [] } : Feature).feature_name
      g d).percentage = 0
    rw [Feature.init_save]
  · show (Feature.init
      (Feature.save { f with percentage := 0, whitelist := [], blacklist := [] } s)
      ({ f with percentage := 0, whitelist := [], blacklist := [] } : Feature).feature_name
      g d).whitelist = []
    rw [Feature.init_save]
  · show (Feature.init
      (Feature.save { f with percentage := 0, whitelist := [], blacklist := [] } s)
      ({ f with percentage := 0, whitelist := [], blacklist := [] } : Feature).feature_name
      g d).blacklist = []
    rw [Feature.init_save]
  · exact mem_registry_save { f with percentage := 0, whitelist := [], blacklist := [] } s

theorem redisGet_redisDelete_self (s : Store) (k : String) :
    redisGet (redisDelete s k) k = none := by
  have hf : List.find? (fun p => p.1 == k) (List.filter (fun p => p.1 != k) s.kv) = none := by
    rw [List.find?_eq_none]
    intro x hx
    rcases List.mem_filter.mp hx with ⟨hmem, hne⟩
    simpa using hne
  unfold redisGet redisDelete
  rw [hf]
  rfl

theorem redisGet_srem (s : Store) (k k2 : String) :
    redisGet (s.srem k) k2 = redisGet s k2 := rfl

theorem not_mem_registry_srem (s : Store) (k : String) : k ∉ (s.srem k).registry := by
  unfold Store.srem
  simp [List.mem_filter]

theorem delete_idempotent (f : Feature) (s : Store) :
    f.delete (f.delete s) = f.delete s := by
  unfold Feature.delete Store.srem redisDelete
  simp [List.filter_filter]

theorem init_delete (f : Feature) (s : Store) (g : Option String) (d : Int) :
    Feature.init (f.delete s) f.feature_name g d
      = { feature_name := f.feature_name, feature_group_name := g,
          whitelist := [], blacklist := [], percentage := d } := by
  unfold Feature.init
  rw [show redisGet (f.delete s) (get_redis_key f.feature_name) = none from
    redisGet_redisDelete_self s (get_redis_key f.feature_name)]
  rfl

/-- C6 (amended): delete() removes the feature's stored record and its
registry membership; a fresh construction for the same name afterwards
returns the all-defaults record (caller default percentage, empty lists);
delete is idempotent, so deleting a feature with no stored record is a
no-op and not an error; and a subsequent all_features() no longer lists
the feature name, provided no other registry key shares its final
dot-separated segment (a key such as feature.1.a.b also yields the name
"b", see the counterexample). -/
theorem C6_amended_delete (f : Feature) (s : Store) (g : Option String) (d : Int) :
    redisGet (f.delete s) (get_redis_key f.feature_name) = none
    ∧ get_redis_key f.feature_name ∉ (f.delete s).registry
    ∧ Feature.init (f.delete s) f.feature_name g d
        = { feature_name := f.feature_name, feature_group_name := g,
            whitelist := [], blacklist := [], percentage := d }
    ∧ f.delete (f.delete s) = f.delete s
    ∧ ((∀ k ∈ (f.delete s).registry,
          get_feature_name_from_redis_key k ≠ f.feature_name) →
        f.feature_name ∉ all_features (f.delete s)) := by
  refine ⟨redisGet_redisDelete_self s _, not_mem_registry_srem _ _,
    init_delete f s g d, delete_idempotent f s, ?_⟩
  intro hall hmem
  rw [all_features, List.mem_map] at hmem
  obtain ⟨k, hk, he⟩ := hmem
  exact hall k hk he

/-- Witness for C6 at a concrete state: after deleting feature "t" from a
store holding only its own key, all_features no longer lists "t". -/
theorem C6_witness :
    "t" ∉ all_features ((Feature.mk "t" none [] [] 5).delete
      (Store.mk [("feature.1.t", StoredDict.mk none none (some 5))] ["feature.1.t"])) :=
  (C6_amended_delete (Feature.mk "t" none [] [] 5)
    (Store.mk [("feature.1.t", StoredDict.mk none none (some 5))] ["feature.1.t"])
    none 0).2.2.2.2 (by decide)

def c6_s1 : Store :=
  ((Feature.init (Store.mk [] []) "a.b" none 0).reset_settings (Store.mk [] [])).2

def c6_s2 : Store := ((Feature.init c6_s1 "b" none 0).reset_settings c6_s1).2

def c6_s3 : Store := (Feature.init c6_s2 "b" none 0).delete c6_s2

/-- Counterexample for C6: save features "a.b" and "b" (via
reset_settings), then delete feature "b".  Its key and registry membership
are gone, yet all_features still lists "b", because the surviving key
feature.1.a.b also maps to the name "b". -/
theorem C6_counterexample :
    redisGet c6_s3 (get_redis_key "b") = none
    ∧ get_redis_key "b" ∉ c6_s3.registry
    ∧ "b" ∈ all_features c6_s3 := by
  refine ⟨by decide, by decide, by decide⟩

/-! ## C7 -/

/-- C7: every entry of all_features(include_data=true) carries the loaded
percentage under the always-present percentage key, and carries the
whitelist (resp. blacklist) key, holding the literal stored list, exactly
when that list is non-empty — the key is omitted when the list is empty. -/
theorem C7_all_features_data (s : Store) (name : String) (e : FeatureData) :
    (name, e) ∈ all_features_with_data s →
      (e.percentage = (Feature.init s name none 0).percentage
      ∧ e.whitelist = (if (Feature.init s name none 0).whitelist = [] then none
          else some ((Feature.init s name none 0).whitelist))
      ∧ e.blacklist = (if (Feature.init s name none 0).blacklist = [] then none
          else some ((Feature.init s name none 0).blacklist))) := by
  intro hmem
  rw [all_features_with_data, List.mem_map] at hmem
  obtain ⟨feature, hf, heq⟩ := hmem
  have h1 : feature = name := congrArg Prod.fst heq
  have h2 : feature_data_entry s feature = e := congrArg Prod.snd heq
  subst h1
  subst h2
  unfold feature_data_entry
  refine ⟨rfl, ?_, ?_⟩
  · by_cases hw : (Feature.init s feature none 0).whitelist = [] <;>
      simp [hw, List.isEmpty_iff]
  · by_cases hb : (Feature.init s feature none 0).blacklist = [] <;>
      simp [hb, List.isEmpty_iff]

/-- Witness for C7: a concrete store with one feature whose whitelist is
non-empty and blacklist is empty. -/
theorem C7_witness :
    (FeatureData.mk 5 (some [.int 3]) none).percentage
        = (Feature.init (Store.mk [("feature.1.t",
            StoredDict.mk (some [.int 3]) (some []) (some 5))] ["feature.1.t"])
            "t" none 0).percentage
    ∧ (FeatureData.mk 5 (some [.int 3]) none).whitelist
        = (if (Feature.init (Store.mk [("feature.1.t",
            StoredDict.mk (some [.int 3]) (some []) (some 5))] ["feature.1.t"])
            "t" none 0).whitelist = [] then none
          else some ((Feature.init (Store.mk [("feature.1.t",
            StoredDict.mk (some [.int 3]) (some []) (some 5))] ["feature.1.t"])
            "t" none 0).whitelist))
    ∧ (FeatureData.mk 5 (some [.int 3]) none).blacklist
        = (if (Feature.init (Store.mk [("feature.1.t",
            StoredDict.mk (some [.int 3]) (some []) (some 5))] ["feature.1.t"])
            "t" none 0).blacklist = [] then none
          else some ((Feature.init (Store.mk [("feature.1.t",
            StoredDict.mk (some [.int 3]) (some []) (some 5))] ["feature.1.t"])
            "t" none 0).blacklist)) :=
  C7_all_features_data
    (Store.mk [("feature.1.t", StoredDict.mk (some [.int 3]) (some []) (some 5))]
      ["feature.1.t"])
    "t" (FeatureData.mk 5 (some [.int 3]) none) (by decide)
